import Mathlib

/-!
Verification of the RedditRover ingestion/dispatch/rescheduling core.

This file gives a shallow embedding of the persistent store
(`src/core/database.py`, class `Database`), the ban/dedup filter and the
dispatcher (`src/core/redditrover.py`, class `RedditRover`), and proves or
refutes the frozen specification claims about them.

Modelling conventions:
* SQLite datetime values (`CURRENT_TIMESTAMP`, `datetime(x, '+N seconds')`)
  are modelled as `Nat` seconds since the epoch; the string comparison of
  well-formed `YYYY-MM-DD HH:MM:SS` values agrees with numeric comparison.
* A table is a list of rows in insertion order; `cur.fetchone()` after a
  `SELECT ... LIMIT 1` is `List.find?`, `fetchall` is the filtered list.
* The sqlite connections are opened with `isolation_level=None`
  (autocommit), so every `execute` commits on its own; operations are
  modelled as functions `DBState -> DBState × Except DBError α` where the
  returned state keeps all writes performed before a raise.  The three
  `Database()` instances of RedditRover open the same file
  `config/storage.db`, hence one shared `DBState`.
* A scalar subquery `(SELECT _ROWID_ FROM modules WHERE ...)` yields the
  value from the first matching row, or SQL NULL when no row matches; an
  SQL comparison `a = b` is TRUE only when both sides are non-NULL and
  equal (`nullEq` below).
-/

/-- SQL equality on a nullable integer column: `a = b` is TRUE only when both
sides are non-NULL and equal; any comparison against NULL is not TRUE. -/
def nullEq (a b : Option Nat) : Bool :=
  match a, b with
  | some x, some y => x == y
  | _, _ => false

/-- Row of the `modules` table: `(module_name STR(50))`, addressed through its
implicit `_ROWID_`.  The column is nullable in the schema, hence
`Option String`; `register_module` only ever inserts non-NULL names. -/
structure ModRow where
  rowid : Nat
  module_name : Option String
  deriving DecidableEq, Repr

/-- Row of `storage` (the dedup records): `(thing_id, bot_module, timestamp)`;
`bot_module` holds a `modules._ROWID_` or NULL. -/
structure StorageRow where
  thing_id : String
  bot_module : Option Nat
  timestamp : Nat
  deriving DecidableEq, Repr

/-- Row of `update_threads` (the deferred tasks):
`(thing_id, bot_module, created, lifetime, last_updated, interval)`. -/
structure UpdateRow where
  thing_id : String
  bot_module : Option Nat
  created : Nat
  lifetime : Nat
  last_updated : Nat
  interval : Nat
  deriving DecidableEq, Repr

/-- Row of `userbans`: `(username, bot_module)`; a NULL `bot_module` is a
global ban (inserted by `add_userban_globally`). -/
structure UserBanRow where
  username : String
  bot_module : Option Nat
  deriving DecidableEq, Repr

/-- Row of `subbans`: `(subreddit, bot_module)`; NULL `bot_module` = global. -/
structure SubBanRow where
  subreddit : String
  bot_module : Option Nat
  deriving DecidableEq, Repr

/-- Row of `stats` (only the columns written by `add_to_stats`). -/
structure StatsRow where
  id : String
  bot_module : Option Nat
  created : Nat
  title : String
  username : String
  subreddit : String
  permalink : String
  deriving DecidableEq, Repr

/-- The persistent store of `src/core/database.py`: the five tables the core
claims are about, plus the rowid counter for `modules` (sqlite assigns fresh
increasing rowids starting from 1). -/
structure DBState where
  modules : List ModRow
  nextRowid : Nat
  storage : List StorageRow
  update_threads : List UpdateRow
  userbans : List UserBanRow
  subbans : List SubBanRow
  stats : List StatsRow
  deriving DecidableEq, Repr

/-- The freshly initialized database: all tables empty. -/
def DBState.empty : DBState := ⟨[], 1, [], [], [], [], []⟩

/-- Errors the `Database` methods raise: `LookupError` from
`_error_if_not_exists`, `ValueError` from `_check_if_module_exists`. -/
inductive DBError where
  | lookupErr
  | valueErr
  deriving DecidableEq, Repr

/-- The scalar subquery `(SELECT _ROWID_ FROM modules WHERE module_name=(?))`:
rowid of the first row named `m`, or NULL. -/
def moduleRowidByName (s : DBState) (m : String) : Option Nat :=
  (s.modules.find? (fun r => r.module_name == some m)).map (·.rowid)

/-- The scalar subquery
`(SELECT _ROWID_ FROM modules WHERE module_name IS NULL)` appearing in the
global-ban branches of `check_user_ban` and `check_subreddit_ban`. -/
def moduleRowidNullName (s : DBState) : Option Nat :=
  (s.modules.find? (fun r => r.module_name == none)).map (·.rowid)

/-- The query `SELECT COUNT(*) FROM modules WHERE module_name = (?)`. -/
def countModules (s : DBState) (m : String) : Nat :=
  (s.modules.filter (fun r => r.module_name == some m)).length

/-- Database._check_if_module_exists: count 0 means unknown, 1 means known,
more than 1 raises `ValueError` (corrupted registry). -/
def _check_if_module_exists (m : String) (s : DBState) : Except DBError Bool :=
  let c := countModules s m
  if c = 0 then .ok false
  else if c = 1 then .ok true
  else .error .valueErr

/-- Database._error_if_not_exists: raises `LookupError` when the module is not
registered; a `ValueError` from the count check propagates. -/
def _error_if_not_exists (m : String) (s : DBState) : Except DBError Unit :=
  match _check_if_module_exists m s with
  | .error e => .error e
  | .ok true => .ok ()
  | .ok false => .error .lookupErr

/-- Database.register_module: inserts the name into `modules` unless
`_check_if_module_exists` already finds it, in which case it returns without
touching the table. -/
def register_module (m : String) (s : DBState) : DBState × Except DBError Unit :=
  match _check_if_module_exists m s with
  | .error e => (s, .error e)
  | .ok true => (s, .ok ())
  | .ok false =>
    ({ s with
        modules := s.modules ++ [⟨s.nextRowid, some m⟩],
        nextRowid := s.nextRowid + 1 },
     .ok ())

/-- Database.insert_into_storage: inserts
`(thing_id, (SELECT _ROWID_ FROM modules WHERE module_name=?), CURRENT_TIMESTAMP)`.
No registration check is performed by this method. -/
def insert_into_storage (thing_id m : String) (now : Nat) (s : DBState) : DBState :=
  { s with storage := s.storage ++ [⟨thing_id, moduleRowidByName s m, now⟩] }

/-- Database.retrieve_thing: after `_error_if_not_exists`, selects the first
`storage` row with this `thing_id` whose `bot_module` equals the rowid of the
named module (`LIMIT 1` + `fetchone`). -/
def retrieve_thing (thing_id m : String) (s : DBState) :
    DBState × Except DBError (Option StorageRow) :=
  match _error_if_not_exists m s with
  | .error e => (s, .error e)
  | .ok () =>
    (s, .ok (s.storage.find? (fun r =>
        r.thing_id == thing_id && nullEq r.bot_module (moduleRowidByName s m))))

/-- Database.insert_into_update: after `_error_if_not_exists`, inserts a row
with `created = now`, `lifetime = datetime('now', '+L seconds') = now + L`,
`last_updated = now`. -/
def insert_into_update (thing_id m : String) (lifetime interval : Nat)
    (now : Nat) (s : DBState) : DBState × Except DBError Unit :=
  match _error_if_not_exists m s with
  | .error e => (s, .error e)
  | .ok () =>
    ({ s with update_threads := s.update_threads ++
        [⟨thing_id, moduleRowidByName s m, now, now + lifetime, now, interval⟩] },
     .ok ())

/-- The `INNER JOIN modules ON update_threads.bot_module = modules._ROWID_
WHERE modules.module_name = (?)` condition of `_select_to_update`. -/
def moduleJoin (s : DBState) (m : String) (bm : Option Nat) : Bool :=
  s.modules.any (fun mr => nullEq bm (some mr.rowid) && mr.module_name == some m)

/-- Database._select_to_update / get_all_to_update: after
`_error_if_not_exists`, all `update_threads` rows of the named module with
`CURRENT_TIMESTAMP > datetime(last_updated, '+interval seconds')`, i.e.
`last_updated + interval < now`, ordered by `last_updated ASC`. -/
def get_all_to_update (m : String) (now : Nat) (s : DBState) :
    DBState × Except DBError (List UpdateRow) :=
  match _error_if_not_exists m s with
  | .error e => (s, .error e)
  | .ok () =>
    (s, .ok (List.insertionSort (fun a b => a.last_updated ≤ b.last_updated)
        (s.update_threads.filter (fun r =>
          moduleJoin s m r.bot_module && decide (r.last_updated + r.interval < now)))))

/-- Database.update_timestamp_in_update: after `_error_if_not_exists`, sets
`last_updated = CURRENT_TIMESTAMP` on every row with this `thing_id` whose
`bot_module` equals the rowid of the named module. -/
def update_timestamp_in_update (thing_id m : String) (now : Nat) (s : DBState) :
    DBState × Except DBError Unit :=
  match _error_if_not_exists m s with
  | .error e => (s, .error e)
  | .ok () =>
    ({ s with update_threads := s.update_threads.map (fun r =>
        if r.thing_id == thing_id && nullEq r.bot_module (moduleRowidByName s m) then
          { r with last_updated := now }
        else r) },
     .ok ())

/-- Database.delete_from_update: after `_error_if_not_exists`, deletes the
rows with this `thing_id` and module whose lifetime has passed
(`CURRENT_TIMESTAMP > lifetime`). -/
def delete_from_update (thing_id m : String) (now : Nat) (s : DBState) :
    DBState × Except DBError Unit :=
  match _error_if_not_exists m s with
  | .error e => (s, .error e)
  | .ok () =>
    ({ s with update_threads := s.update_threads.filter (fun r =>
        !(r.thing_id == thing_id && nullEq r.bot_module (moduleRowidByName s m)
          && decide (r.lifetime < now))) },
     .ok ())

/-- Python `cur.fetchone() is True`: `fetchone` yields `None` or a row tuple,
and neither object is identical to the boolean literal `True`, so this
identity test evaluates to `False` whatever the query returned.  This is the
final `return` expression of both `check_user_ban` (database.py line 363) and
`check_subreddit_ban` (line 456). -/
def fetchoneIsTrueLiteral {α : Type} (_row : Option α) : Bool := false

/-- Database.check_user_ban: first query looks for a row of the named module
(`bot_module = (SELECT _ROWID_ FROM modules WHERE module_name = ?)`); if one
is fetched the method returns True.  The second query compares `bot_module`
against `(SELECT _ROWID_ FROM modules WHERE module_name IS NULL)` and the
method returns `fetchone() is True`. -/
def check_user_ban (username m : String) (s : DBState) : Bool :=
  let q1 := s.userbans.find? (fun r =>
    r.username == username && nullEq r.bot_module (moduleRowidByName s m))
  if q1.isSome then true
  else
    fetchoneIsTrueLiteral (s.userbans.find? (fun r =>
      r.username == username && nullEq r.bot_module (moduleRowidNullName s)))

/-- Database.check_subreddit_ban: same shape as `check_user_ban` over
`subbans`. -/
def check_subreddit_ban (subreddit m : String) (s : DBState) : Bool :=
  let q1 := s.subbans.find? (fun r =>
    r.subreddit == subreddit && nullEq r.bot_module (moduleRowidByName s m))
  if q1.isSome then true
  else
    fetchoneIsTrueLiteral (s.subbans.find? (fun r =>
      r.subreddit == subreddit && nullEq r.bot_module (moduleRowidNullName s)))

/-- Database.add_userban_per_module. -/
def add_userban_per_module (username m : String) (s : DBState) : DBState :=
  { s with userbans := s.userbans ++ [⟨username, moduleRowidByName s m⟩] }

/-- Database.add_userban_globally: inserts `(username, NULL)`. -/
def add_userban_globally (username : String) (s : DBState) : DBState :=
  { s with userbans := s.userbans ++ [⟨username, none⟩] }

/-- Database.add_subreddit_ban_per_module (the automatic ban written by the
dispatcher on a Forbidden error). -/
def add_subreddit_ban_per_module (subreddit m : String) (s : DBState) : DBState :=
  { s with subbans := s.subbans ++ [⟨subreddit, moduleRowidByName s m⟩] }

/-- Database.wipe_module: three DELETEs, in source order — `storage` rows
whose `bot_module` equals the rowid of the named module, then the same on
`update_threads`, then the `modules` rows of that name.  No statement touches
`userbans` or `subbans`. -/
def wipe_module (m : String) (s : DBState) : DBState :=
  let s1 := { s with storage := s.storage.filter (fun r =>
      !(nullEq r.bot_module (moduleRowidByName s m))) }
  let s2 := { s1 with update_threads := s1.update_threads.filter (fun r =>
      !(nullEq r.bot_module (moduleRowidByName s1 m))) }
  { s2 with modules := s2.modules.filter (fun r => !(r.module_name == some m)) }

/-- Database.add_to_stats: inserts the stats row for a response, resolving the
module name to its rowid. -/
def add_to_stats (id m title username subreddit permalink : String)
    (now : Nat) (s : DBState) : DBState :=
  { s with stats := s.stats ++
      [⟨id, moduleRowidByName s m, now, title, username, subreddit, permalink⟩] }

/-- Database.clean_up_database: deletes `storage` rows strictly older than the
threshold and `update_threads` rows whose lifetime has passed. -/
def clean_up_database (older_than now : Nat) (s : DBState) : DBState :=
  { s with
      storage := s.storage.filter (fun r => !(decide (r.timestamp < older_than))),
      update_threads := s.update_threads.filter (fun r => !(decide (r.lifetime < now))) }

/-!
The RedditRover side (`src/core/redditrover.py`): items, plugins, the
ban/dedup filter, the dispatch worker/action and the update scheduler.
-/

/-- An externally produced item (a praw submission or comment), with the
attributes the core reads.  `author = none` models an absent or deleted
author (`thing.author` is `None` or not a Redditor); `submissionTitle` is
`thing.submission.title`, read for comments when building the stats row. -/
structure Thing where
  name : String
  fullname : String
  isComment : Bool
  is_self : Bool
  selftext : String
  author : Option String
  subreddit : String
  title : String
  submissionTitle : String
  permalink : String

/-- The exception classes distinguished by the dispatch code paths.
`apiExc` carries `error_type`; `prawOther` is any other `PRAWException`;
`generic` is any exception outside the praw hierarchy (for instance the
`AttributeError` raised when `thing.author` is `None`). -/
inductive PyExc where
  | forbidden
  | notFound
  | apiExc (error_type : String)
  | invalidSubmission
  | prawOther
  | generic
  deriving DecidableEq, Repr

/-- Whether the exception is caught by `except PRAWException` in
`comment_submission_worker`.  Only `prawOther` and `generic` can reach that
handler (the others are absorbed inside `comment_submission_action`);
`generic` is not a `PRAWException`. -/
def PyExc.isPRAWException : PyExc → Bool
  | .apiExc _ => true
  | .invalidSubmission => true
  | .prawOther => true
  | _ => false

/-- Result of one reaction entry point of a plugin: a truthiness value
(`responded`) or a raised exception. -/
inductive ReactRes where
  | ok (responded : Bool)
  | raised (e : PyExc)

/-- A loaded plugin, with the attributes and entry points the core calls.
`SELF_IGNORE = none` models the attribute being absent (`hasattr` false);
`sessionUserName = none` models `responder.session.user.name` raising (an
anonymous session, or a praw `User` object without a `name` attribute). -/
structure Responder where
  BOT_NAME : String
  SELF_IGNORE : Option Bool
  sessionUserName : Option String
  executeSubmission : Thing → ReactRes
  executeTitlepost : Thing → ReactRes
  executeLink : Thing → ReactRes
  executeComment : Thing → ReactRes

/-- The try-block of `RedditRover._filter_single_thing` (redditrover.py lines
131-147), with an exceptional outcome for the attribute accesses and database
calls that can raise.  The comment and submission `Database` objects open the
same sqlite file, so both are the one `DBState`. -/
def filterBody (s : DBState) (t : Thing) (r : Responder) : Except Unit Bool :=
  match (retrieve_thing t.name r.BOT_NAME s).2 with
  | .error _ => .error ()
  | .ok stored =>
    if stored.isSome then .ok false
    else
      match t.author with
      | some a =>
        if check_user_ban a r.BOT_NAME s then .ok false
        else
          match r.sessionUserName with
          | none => .error ()
          | some selfName =>
            if a == selfName && r.SELF_IGNORE == some true then .ok false
            else if check_subreddit_ban t.subreddit r.BOT_NAME s then .ok false
            else .ok true
      | none =>
        if check_subreddit_ban t.subreddit r.BOT_NAME s then .ok false
        else .ok true

/-- RedditRover._filter_single_thing: the try-block above under
`except Exception: return False`. -/
def _filter_single_thing (s : DBState) (t : Thing) (r : Responder) : Bool :=
  match filterBody s t r with
  | .ok b => b
  | .error () => false

/-- The entry-point selection of `comment_submission_action` (lines 246-253):
self-post with body → `execute_submission`; self-post without body →
`execute_titlepost`; other submission → `execute_link`; comment →
`execute_comment`. -/
def reaction (t : Thing) (r : Responder) : ReactRes :=
  if !t.isComment && t.is_self && t.selftext ≠ "" then r.executeSubmission t
  else if !t.isComment && t.is_self then r.executeTitlepost t
  else if !t.isComment then r.executeLink t
  else r.executeComment t

/-- RedditRover.comment_submission_action: invokes the selected entry point
and, on a truthy result, performs the dedup-record insert followed by the
stats append (two separate autocommitted writes).  The returned state keeps
every write performed before a raise; the `Option PyExc` is the exception the
method lets propagate to the worker.  The except clauses: `Forbidden` inserts
an automatic subreddit ban; `NotFound` passes; `APIException` and
`InvalidSubmission` are absorbed (the DELETED_LINK test only selects the log
line); anything else is re-raised.  Building the stats arguments reads
`thing.author.name`, which raises when the author is gone — after the dedup
insert already committed. -/
def comment_submission_action (now : Nat) (t : Thing) (r : Responder)
    (s : DBState) : DBState × Option PyExc :=
  match reaction t r with
  | .raised .forbidden => (add_subreddit_ban_per_module t.subreddit r.BOT_NAME s, none)
  | .raised .notFound => (s, none)
  | .raised (.apiExc _) => (s, none)
  | .raised .invalidSubmission => (s, none)
  | .raised e => (s, some e)
  | .ok false => (s, none)
  | .ok true =>
    let s1 := insert_into_storage t.name r.BOT_NAME now s
    match t.author with
    | none => (s1, some .generic)
    | some a =>
      let title := if t.isComment then t.submissionTitle else t.title
      (add_to_stats t.fullname r.BOT_NAME title a t.subreddit t.permalink now s1, none)

/-- The exception `comment_submission_action` lets propagate, as a function of
the item and the plugin alone (none of the propagating paths depends on the
database state). -/
def propagatedExc (t : Thing) (r : Responder) : Option PyExc :=
  match reaction t r with
  | .raised .prawOther => some .prawOther
  | .raised .generic => some .generic
  | .ok true => if t.author.isNone then some PyExc.generic else none
  | _ => none

/-- Per-responder record of what the worker loop did: the action returned
normally, or its exception was logged by the `except PRAWException` handler,
or by the final `except Exception` handler. -/
inductive WorkerStep where
  | completed (bot : String)
  | httpLogged (bot : String)
  | errLogged (bot : String)
  deriving DecidableEq, Repr

/-- RedditRover.comment_submission_worker: iterates the responder list in
order and calls `comment_submission_action` for every one — the
`_filter_single_thing` guard on line 221 is commented out in the source, so
no filtering happens here.  A `PRAWException` is logged and absorbed when
`catch_http_exception` is set, re-raised otherwise (the final `Option PyExc`
is that uncaught re-raise, which aborts the loop); any other exception is
logged and the loop continues. -/
def comment_submission_worker (catchHttp : Bool) (now : Nat) (t : Thing)
    (rs : List Responder) (s : DBState) :
    DBState × List WorkerStep × Option PyExc :=
  match rs with
  | [] => (s, [], none)
  | r :: rest =>
    let (s1, e) := comment_submission_action now t r s
    match e with
    | none =>
      let (s2, steps, u) := comment_submission_worker catchHttp now t rest s1
      (s2, .completed r.BOT_NAME :: steps, u)
    | some ex =>
      if ex.isPRAWException then
        if catchHttp then
          let (s2, steps, u) := comment_submission_worker catchHttp now t rest s1
          (s2, .httpLogged r.BOT_NAME :: steps, u)
        else (s1, [], some ex)
      else
        let (s2, steps, u) := comment_submission_worker catchHttp now t rest s1
        (s2, .errLogged r.BOT_NAME :: steps, u)

/-!
Startup (`RedditRover.load_responders`, lines 151-188, and the surrounding
try/except of `__init__`, lines 83-96).
-/

/-- The names bound at module level of `src/core/redditrover.py` by its import
statements (lines 2-17): the explicit from-imports and plain imports, plus
the wildcard imports.  `from core import *` binds what `core/__init__.py`
defines (its four from-imports, `RedditRover`, and the submodule attributes);
`from praw.exceptions import *` binds the praw exception classes.  Note that
line 4 is `from sys import exit` — it binds `exit` but not `sys`, and no
other import binds a name `sys`. -/
def redditroverModuleNames : List String :=
  ["ConfigParser", "time", "sleep", "strptime", "exit", "pkgutil", "traceback",
   "resource_filename", "praw", "plugins", "logprovider", "warning_filter",
   "retry", "StatisticsFeeder",
   "PluginBase", "Database", "setup_logging", "MultiThreader", "RedditRover",
   "baseclass", "database", "multithreader", "redditrover",
   "PRAWException", "APIException", "ClientException", "InvalidSubmission",
   "Forbidden", "NotFound"]

/-- Outcome of evaluating the body of `load_responders` past the validation
loop: either the validated set is non-empty and the method returns, or it is
empty and line 187 evaluates `sys.exit(0)`.  Since the module namespace binds
no name `sys`, that expression raises `NameError` — an `Exception` — instead
of raising `SystemExit(0)` (which is a `BaseException` outside `Exception`). -/
inductive StartupFlow where
  | returns
  | raisesSystemBaseExc (code : Int)
  | raisesNameErr
  deriving DecidableEq, Repr

/-- RedditRover.load_responders, reduced to the part the claim is about: the
validated plugins become the responder list; if it is empty, line 187 runs
`sys.exit(0)` in a namespace where `sys` is unbound. -/
def load_responders (validated : List Responder) : StartupFlow :=
  if validated.isEmpty then
    if redditroverModuleNames.contains "sys" then .raisesSystemBaseExc 0
    else .raisesNameErr
  else .returns

/-- The `try`/`except Exception` of `RedditRover.__init__` around
`load_responders`: a `NameError` is caught and `exit(-1)` (the `sys.exit`
imported on line 4) terminates the process with status -1; a `SystemExit`
would not be caught by `except Exception` and would carry its own code; on a
normal return startup continues (`none`). -/
def rover_startup_code (validated : List Responder) : Option Int :=
  match load_responders validated with
  | .returns => none
  | .raisesNameErr => some (-1)
  | .raisesSystemBaseExc c => some c

/-!
The update scheduler (`RedditRover.update_thread` / `update_action`,
lines 284-339).
-/

/-- Observable scheduler effects of `update_action`, in execution order: the
`last_updated` write, then the call of the plugin `update_procedure` with the
tuple fields read from the selected row (`thread[2]` created, `thread[3]`
lifetime, `thread[4]` the last_updated value from before the write,
`thread[5]` interval). -/
inductive SchedEvent where
  | tsWrite (thing_id : String) (m : String)
  | updCallback (thing_id : String) (created lifetime last_updated interval : Nat)
  deriving DecidableEq, Repr

/-- RedditRover.update_action: first `update_timestamp_in_update(thread[0],
BOT_NAME)`, then `responder.update_procedure(...)` with the row fields.  If
the timestamp write raises, the callback is never reached. -/
def update_action (thread : UpdateRow) (r : Responder) (tFire : Nat)
    (s : DBState) : DBState × List SchedEvent × Option DBError :=
  match update_timestamp_in_update thread.thing_id r.BOT_NAME tFire s with
  | (s1, .error e) => (s1, [], some e)
  | (s1, .ok ()) =>
    (s1,
     [.tsWrite thread.thing_id r.BOT_NAME,
      .updCallback thread.thing_id thread.created thread.lifetime
        thread.last_updated thread.interval],
     none)


/-!
Derived definitions used in the claim statements.
-/

/-- The bot name a worker step is about. -/
def WorkerStep.bot : WorkerStep → String
  | .completed b => b
  | .httpLogged b => b
  | .errLogged b => b

/-- Whether the exception the action lets propagate for this item and plugin
is a `PRAWException` (those are re-raised by the worker when
`catch_http_exception` is off). -/
def propagatesPRAW (t : Thing) (r : Responder) : Bool :=
  match propagatedExc t r with
  | some e => e.isPRAWException
  | none => false

/-!
Concrete inputs used by the witnesses and counterexamples.  All stores are
built through the `Database` operations themselves, so they are reachable
states.
-/

/-- Store with the single registered handler "mod" (rowid 1). -/
def dbWithMod : DBState := (register_module "mod" DBState.empty).1

/-- Store where "alice" carries a global ban row `(alice, NULL)`. -/
def dbAliceGlobalBan : DBState := add_userban_globally "alice" dbWithMod

/-- A comment authored by "alice". -/
def commentByAlice : Thing :=
  ⟨"t1_al1", "t1_al1", true, false, "", some "alice", "AskReddit", "", "A title",
   "/r/AskReddit/1"⟩

/-- The handler "mod", logged in as "roverbot", never reacting. -/
def modResponder : Responder :=
  ⟨"mod", some true, some "roverbot",
   fun _ => .ok false, fun _ => .ok false, fun _ => .ok false, fun _ => .ok false⟩

/-- Store with handler "mod" plus one row of every kind referencing it: a user
ban, a subreddit ban, a dedup record and a deferred task. -/
def dbModAllRows : DBState :=
  (insert_into_update "t2_c384fd" "mod" 600 15 100
    (insert_into_storage "t2_c384fd" "mod" 100
      (add_subreddit_ban_per_module "dota2" "mod"
        (add_userban_per_module "alice" "mod" dbWithMod)))).1

/-- Store with the single registered handler "echo" (rowid 1). -/
def dbWithEcho : DBState := (register_module "echo" DBState.empty).1

/-- A comment item "c1" with a live author. -/
def commentC1 : Thing :=
  ⟨"c1", "t1_c1", true, false, "", some "tom", "pics", "", "Pic title", "/r/pics/c1"⟩

/-- The handler "echo": reacts to every comment. -/
def echoResponder : Responder :=
  ⟨"echo", some true, some "echobot",
   fun _ => .ok false, fun _ => .ok false, fun _ => .ok false, fun _ => .ok true⟩

/-- The store after "echo" reacted successfully to "c1" once: the DedupRecord
for (c1, echo) and the stats row are present. -/
def dbAfterFirstReaction : DBState :=
  (comment_submission_action 100 commentC1 echoResponder dbWithEcho).1

/-- A comment whose author is gone (`thing.author` is `None`). -/
def commentNoAuthor : Thing :=
  ⟨"c9", "t1_c9", true, false, "", none, "pics", "", "T", "/r/pics/c9"⟩

/-- Handler A: reacts to every comment. -/
def responderA : Responder :=
  ⟨"A", none, some "a_bot",
   fun _ => .ok false, fun _ => .ok false, fun _ => .ok false, fun _ => .ok true⟩

/-- Handler B: its comment reaction raises an unexpected (non-praw) error. -/
def responderB : Responder :=
  ⟨"B", none, some "b_bot",
   fun _ => .ok false, fun _ => .ok false, fun _ => .ok false, fun _ => .raised .generic⟩

/-- Handler C: examines and declines. -/
def responderC : Responder :=
  ⟨"C", none, some "c_bot",
   fun _ => .ok false, fun _ => .ok false, fun _ => .ok false, fun _ => .ok false⟩

/-- Store with the three handlers A, B, C registered. -/
def dbABC : DBState :=
  (register_module "C" (register_module "B" (register_module "A" DBState.empty).1).1).1

/-- Store with handler "echo" and one deferred task for "c1": created at 100,
lifetime 600 s, interval 15 s. -/
def dbEchoUpd : DBState := (insert_into_update "c1" "echo" 600 15 100 dbWithEcho).1

/-- The deferred-task row of `dbEchoUpd`. -/
def updRowC1 : UpdateRow := ⟨"c1", some 1, 100, 700, 100, 15⟩

/-!
Helper lemmas about the registry check and the store operations.
-/

theorem error_if_not_exists_lookup_iff (m : String) (s : DBState) :
    _error_if_not_exists m s = .error .lookupErr ↔ countModules s m = 0 := by
  unfold _error_if_not_exists _check_if_module_exists
  rcases hc : countModules s m with _ | c
  · simp
  · rcases c with _ | c <;> simp

theorem error_if_not_exists_of_registered (m : String) (s : DBState)
    (h : countModules s m = 1) : _error_if_not_exists m s = .ok () := by
  unfold _error_if_not_exists _check_if_module_exists
  simp [h]

theorem countModules_register_insert (m : String) (s : DBState)
    (h0 : countModules s m = 0) :
    countModules { s with
        modules := s.modules ++ [⟨s.nextRowid, some m⟩],
        nextRowid := s.nextRowid + 1 } m = 1 := by
  simp only [countModules, List.filter_append, List.length_append] at h0 ⊢
  rw [h0]
  simp

theorem register_module_noop_of_one (m : String) (s : DBState)
    (h : countModules s m = 1) : register_module m s = (s, .ok ()) := by
  simp [register_module, _check_if_module_exists, h]

theorem register_module_of_zero (m : String) (s : DBState)
    (h0 : countModules s m = 0) :
    countModules (register_module m s).1 m = 1 ∧ (register_module m s).2 = .ok () := by
  simp only [register_module, _check_if_module_exists, h0]
  norm_num
  exact countModules_register_insert m s h0

theorem action_exc_eq_propagated (now : Nat) (t : Thing) (r : Responder)
    (s : DBState) :
    (comment_submission_action now t r s).2 = propagatedExc t r := by
  unfold comment_submission_action propagatedExc
  rcases hre : reaction t r with b | e
  · cases b
    · rfl
    · rcases ha : t.author with _ | a <;> simp [ha]
  · cases e <;> rfl

theorem last_updated_set_by_update (s : DBState) (m : String) (tid : String)
    (tFire : Nat) (r' : UpdateRow)
    (h : r' ∈ (s.update_threads.map (fun row =>
      if row.thing_id == tid && nullEq row.bot_module (moduleRowidByName s m) then
        { row with last_updated := tFire }
      else row)))
    (ht : r'.thing_id = tid)
    (hb : nullEq r'.bot_module (moduleRowidByName s m) = true) :
    r'.last_updated = tFire := by
  obtain ⟨r0, hr0, heq⟩ := List.mem_map.mp h
  by_cases hc : (r0.thing_id == tid && nullEq r0.bot_module (moduleRowidByName s m)) = true
  · rw [if_pos hc] at heq
    rw [← heq]
  · rw [if_neg hc] at heq
    subst heq
    have hcond : (r0.thing_id == tid && nullEq r0.bot_module (moduleRowidByName s m)) = true := by
      simp [ht, hb]
    exact absurd hcond hc

/-!
The claims.
-/

/-- C1: the claim fails on the code.  With the DedupRecord for (c1, echo)
already in the store, `_filter_single_thing` does return false — but
`comment_submission_worker` never consults it (the call on redditrover.py
line 221 is commented out), so dispatching the same item a second time
invokes the reaction entry point of "echo" again, which reacts and inserts a
second DedupRecord for the same (item, handler) pair. -/
theorem worker_redispatches_deduped_item :
    (dbAfterFirstReaction.storage.filter (fun row => row.thing_id == "c1")).length = 1 ∧
    _filter_single_thing dbAfterFirstReaction commentC1 echoResponder = false ∧
    (comment_submission_worker true 200 commentC1 [echoResponder]
        dbAfterFirstReaction).2.1 = [.completed "echo"] ∧
    ((comment_submission_worker true 200 commentC1 [echoResponder]
        dbAfterFirstReaction).1.storage.filter
      (fun row => row.thing_id == "c1")).length = 2 :=
  ⟨by decide, by decide, by decide, by decide⟩

/-- C2: the claim fails on the code.  With a global ban row `(alice, NULL)`
present, `check_user_ban "alice" "mod"` still returns false: the global
branch compares `bot_module` against a subquery over `module_name IS NULL`
(never satisfiable, since `register_module` only inserts non-NULL names) and
then returns `fetchone() is True`, which is false for any fetched value — so
`_filter_single_thing` lets an item authored by "alice" through. -/
theorem global_ban_lookup_returns_false :
    dbAliceGlobalBan.userbans = [⟨"alice", none⟩] ∧
    check_user_ban "alice" "mod" dbAliceGlobalBan = false ∧
    _filter_single_thing dbAliceGlobalBan commentByAlice modResponder = true :=
  ⟨by decide, by decide, by decide⟩

/-- C3: the claim fails on the code.  Starting from a store holding a dedup
record, a deferred task, a user ban and a subreddit ban that all reference
handler "mod", `wipe_module "mod"` empties `storage`, `update_threads` and
`modules` — but leaves the `userbans` and `subbans` rows in place (the method
issues no DELETE against those tables, contradicting its docstring "wipes a
module across all tables and all its references"). -/
theorem wipe_module_leaves_ban_rows :
    dbModAllRows.userbans = [⟨"alice", some 1⟩] ∧
    dbModAllRows.subbans = [⟨"dota2", some 1⟩] ∧
    (wipe_module "mod" dbModAllRows).storage = [] ∧
    (wipe_module "mod" dbModAllRows).update_threads = [] ∧
    (wipe_module "mod" dbModAllRows).modules = [] ∧
    (wipe_module "mod" dbModAllRows).userbans = [⟨"alice", some 1⟩] ∧
    (wipe_module "mod" dbModAllRows).subbans = [⟨"dota2", some 1⟩] :=
  ⟨by decide, by decide, by decide, by decide, by decide, by decide, by decide⟩

/-- C4: when the validated responder set is empty, startup terminates the
process with a non-zero status.  Line 187 runs `sys.exit(0)`, but the module
never binds the name `sys` (line 4 imports only `exit` from it), so the
branch raises `NameError`; the `except Exception` in `__init__` catches it
and calls `exit(-1)`, aborting with status -1. -/
theorem empty_responders_aborts_nonzero (vs : List Responder) (h : vs = []) :
    rover_startup_code vs = some (-1) ∧ (-1 : Int) ≠ 0 := by
  subst h
  exact ⟨by decide, by decide⟩

/-- Witness for C4: the empty responder list. -/
theorem empty_responders_aborts_nonzero_witness :
    ([] : List Responder) = [] ∧
    (rover_startup_code ([] : List Responder) = some (-1) ∧ (-1 : Int) ≠ 0) :=
  ⟨rfl, empty_responders_aborts_nonzero [] rfl⟩

/-- C5: `registerHandler` is idempotent.  In any state whose registry is not
already corrupted (at most one row for the name), registering the name twice
succeeds, leaves exactly one registry row for it, and the second call is a
no-op: it returns the state unchanged. -/
theorem register_module_idempotent (m : String) (s : DBState)
    (h : countModules s m ≤ 1) :
    (register_module m s).2 = .ok () ∧
    (register_module m (register_module m s).1).2 = .ok () ∧
    countModules (register_module m (register_module m s).1).1 m = 1 ∧
    (register_module m (register_module m s).1).1 = (register_module m s).1 := by
  rcases Nat.le_one_iff_eq_zero_or_eq_one.mp h with h0 | h1
  · obtain ⟨hc, hok⟩ := register_module_of_zero m s h0
    have hnoop := register_module_noop_of_one m (register_module m s).1 hc
    exact ⟨hok, by rw [hnoop], by rw [hnoop]; exact hc, by rw [hnoop]⟩
  · have hnoop := register_module_noop_of_one m s h1
    rw [hnoop]
    exact ⟨rfl, by rw [hnoop], by rw [hnoop]; exact h1, by rw [hnoop]⟩

/-- Witness for C5 at a concrete input: the empty store and the handler name
from the repository examples. -/
theorem register_module_idempotent_witness :
    countModules DBState.empty "MassdropBot" ≤ 1 ∧
    ((register_module "MassdropBot" DBState.empty).2 = .ok () ∧
     (register_module "MassdropBot" (register_module "MassdropBot" DBState.empty).1).2 = .ok () ∧
     countModules (register_module "MassdropBot"
        (register_module "MassdropBot" DBState.empty).1).1 "MassdropBot" = 1 ∧
     (register_module "MassdropBot" (register_module "MassdropBot" DBState.empty).1).1 =
       (register_module "MassdropBot" DBState.empty).1) :=
  ⟨by decide, register_module_idempotent "MassdropBot" DBState.empty (by decide)⟩

/-- C6: a deferred task is selected for firing on a scheduler tick exactly
when `now > last_updated + interval`, and firing at time `tFire` sets the
`last_updated` column of the task rows to `tFire` — the firing time, not the
creation time. -/
theorem deferred_task_fires_iff_due (s : DBState) (m : String) (now tFire : Nat)
    (r : UpdateRow) (hm : countModules s m = 1) :
    (∃ rows, (get_all_to_update m now s).2 = Except.ok rows ∧
      (r ∈ rows ↔ r ∈ s.update_threads ∧ moduleJoin s m r.bot_module = true ∧
        r.last_updated + r.interval < now)) ∧
    (∀ r' ∈ ((update_timestamp_in_update r.thing_id m tFire s).1).update_threads,
       r'.thing_id = r.thing_id →
       nullEq r'.bot_module (moduleRowidByName s m) = true →
       r'.last_updated = tFire ∧ (tFire ≠ r'.created → r'.last_updated ≠ r'.created)) := by
  have hok := error_if_not_exists_of_registered m s hm
  constructor
  · refine ⟨List.insertionSort (fun a b => a.last_updated ≤ b.last_updated)
      (s.update_threads.filter (fun row =>
        moduleJoin s m row.bot_module && decide (row.last_updated + row.interval < now))),
      ?_, ?_⟩
    · simp only [get_all_to_update, hok]
    · rw [List.mem_insertionSort, List.mem_filter]
      simp [Bool.and_eq_true, decide_eq_true_eq, and_assoc]
  · intro r' hr' ht hb
    simp only [update_timestamp_in_update, hok] at hr'
    have hlast := last_updated_set_by_update s m r.thing_id tFire r' hr' ht hb
    refine ⟨hlast, fun hne => ?_⟩
    rw [hlast]
    exact hne

/-- Witness for C6: the task created at 100 with interval 15 is due at tick
time 120, and firing at 120 stamps `last_updated = 120`. -/
theorem deferred_task_fires_iff_due_witness :
    countModules dbEchoUpd "echo" = 1 ∧
    ((∃ rows, (get_all_to_update "echo" 120 dbEchoUpd).2 = Except.ok rows ∧
      (updRowC1 ∈ rows ↔ updRowC1 ∈ dbEchoUpd.update_threads ∧
        moduleJoin dbEchoUpd "echo" updRowC1.bot_module = true ∧
        updRowC1.last_updated + updRowC1.interval < 120)) ∧
    (∀ r' ∈ ((update_timestamp_in_update updRowC1.thing_id "echo" 120
        dbEchoUpd).1).update_threads,
       r'.thing_id = updRowC1.thing_id →
       nullEq r'.bot_module (moduleRowidByName dbEchoUpd "echo") = true →
       r'.last_updated = 120 ∧ (120 ≠ r'.created → r'.last_updated ≠ r'.created))) :=
  ⟨by decide, deferred_task_fires_iff_due dbEchoUpd "echo" 120 120 updRowC1 (by decide)⟩

/-- C7: `update_action` advances the `last_updated` timestamp strictly before
invoking the update callback — its event trace is the database write followed
by the callback, and after the write the task can no longer satisfy the DUE
predicate at any time up to the firing time, so it cannot fire a second time
in the same tick even if the callback crashes. -/
theorem timestamp_advanced_before_callback (thread : UpdateRow) (r : Responder)
    (tFire : Nat) (s : DBState) (hm : countModules s r.BOT_NAME = 1) :
    (update_action thread r tFire s).2.1 =
      [SchedEvent.tsWrite thread.thing_id r.BOT_NAME,
       SchedEvent.updCallback thread.thing_id thread.created thread.lifetime
         thread.last_updated thread.interval] ∧
    (update_action thread r tFire s).2.2 = none ∧
    (∀ tSel ≤ tFire, ∀ r' ∈ (update_action thread r tFire s).1.update_threads,
       r'.thing_id = thread.thing_id →
       nullEq r'.bot_module (moduleRowidByName s r.BOT_NAME) = true →
       ¬ (r'.last_updated + r'.interval < tSel)) := by
  have hok := error_if_not_exists_of_registered r.BOT_NAME s hm
  refine ⟨?_, ?_, ?_⟩
  · simp [update_action, update_timestamp_in_update, hok]
  · simp [update_action, update_timestamp_in_update, hok]
  · intro tSel htle r' hr' ht hb
    simp only [update_action, update_timestamp_in_update, hok] at hr'
    have hlast := last_updated_set_by_update s r.BOT_NAME thread.thing_id tFire r' hr' ht hb
    rw [hlast]
    omega

/-- Witness for C7: firing the concrete task at time 130. -/
theorem timestamp_advanced_before_callback_witness :
    countModules dbEchoUpd echoResponder.BOT_NAME = 1 ∧
    ((update_action updRowC1 echoResponder 130 dbEchoUpd).2.1 =
      [SchedEvent.tsWrite updRowC1.thing_id echoResponder.BOT_NAME,
       SchedEvent.updCallback updRowC1.thing_id updRowC1.created updRowC1.lifetime
         updRowC1.last_updated updRowC1.interval] ∧
    (update_action updRowC1 echoResponder 130 dbEchoUpd).2.2 = none ∧
    (∀ tSel ≤ 130, ∀ r' ∈ (update_action updRowC1 echoResponder 130
        dbEchoUpd).1.update_threads,
       r'.thing_id = updRowC1.thing_id →
       nullEq r'.bot_module (moduleRowidByName dbEchoUpd echoResponder.BOT_NAME) = true →
       ¬ (r'.last_updated + r'.interval < tSel))) :=
  ⟨by decide,
   timestamp_advanced_before_callback updRowC1 echoResponder 130 dbEchoUpd (by decide)⟩

/-- C8, counterexample to the claim as stated: the two writes of the reacted
branch are not atomic.  On a comment whose author is gone, the DedupRecord
insert commits, building the stats arguments then raises, and the resulting
store holds the dedup row for (c9, echo) with no stats row — a reachable
state in which exactly one of the two rows exists. -/
theorem dedup_insert_and_stats_not_atomic :
    (comment_submission_action 100 commentNoAuthor echoResponder dbWithEcho).1.storage =
      [⟨"c9", some 1, 100⟩] ∧
    (comment_submission_action 100 commentNoAuthor echoResponder dbWithEcho).1.stats = [] ∧
    (comment_submission_action 100 commentNoAuthor echoResponder dbWithEcho).2 =
      some PyExc.generic :=
  ⟨by decide, by decide, by decide⟩

/-- C8 as amended: on a reacted outcome the Dispatcher performs the
DedupRecord insert and then the stats append as two separate autocommitted
writes.  When the stats arguments can be built (the author is present) both
rows are appended; when building them fails after the insert, the DedupRecord
remains and the stats table is unchanged — no rollback occurs. -/
theorem reacted_writes_sequential_effects (now : Nat) (t : Thing) (r : Responder)
    (s : DBState) (h : reaction t r = .ok true) :
    (∀ a, t.author = some a →
      (comment_submission_action now t r s).1.storage =
        s.storage ++ [⟨t.name, moduleRowidByName s r.BOT_NAME, now⟩] ∧
      (comment_submission_action now t r s).1.stats =
        s.stats ++ [⟨t.fullname, moduleRowidByName s r.BOT_NAME, now,
          (if t.isComment then t.submissionTitle else t.title), a,
          t.subreddit, t.permalink⟩] ∧
      (comment_submission_action now t r s).2 = none) ∧
    (t.author = none →
      (comment_submission_action now t r s).1.storage =
        s.storage ++ [⟨t.name, moduleRowidByName s r.BOT_NAME, now⟩] ∧
      (comment_submission_action now t r s).1.stats = s.stats ∧
      (comment_submission_action now t r s).2 = some .generic) := by
  constructor
  · intro a ha
    simp [comment_submission_action, h, ha, insert_into_storage, add_to_stats,
      moduleRowidByName]
  · intro ha
    simp [comment_submission_action, h, ha, insert_into_storage, moduleRowidByName]

/-- Witness for the amended C8: the reacting handler "echo" on comment "c1". -/
theorem reacted_writes_sequential_effects_witness :
    reaction commentC1 echoResponder = .ok true ∧
    ((∀ a, commentC1.author = some a →
      (comment_submission_action 100 commentC1 echoResponder dbWithEcho).1.storage =
        dbWithEcho.storage ++
          [⟨commentC1.name, moduleRowidByName dbWithEcho echoResponder.BOT_NAME, 100⟩] ∧
      (comment_submission_action 100 commentC1 echoResponder dbWithEcho).1.stats =
        dbWithEcho.stats ++ [⟨commentC1.fullname,
          moduleRowidByName dbWithEcho echoResponder.BOT_NAME, 100,
          (if commentC1.isComment then commentC1.submissionTitle else commentC1.title), a,
          commentC1.subreddit, commentC1.permalink⟩] ∧
      (comment_submission_action 100 commentC1 echoResponder dbWithEcho).2 = none) ∧
    (commentC1.author = none →
      (comment_submission_action 100 commentC1 echoResponder dbWithEcho).1.storage =
        dbWithEcho.storage ++
          [⟨commentC1.name, moduleRowidByName dbWithEcho echoResponder.BOT_NAME, 100⟩] ∧
      (comment_submission_action 100 commentC1 echoResponder dbWithEcho).1.stats =
        dbWithEcho.stats ∧
      (comment_submission_action 100 commentC1 echoResponder dbWithEcho).2 =
        some .generic)) :=
  ⟨rfl, reacted_writes_sequential_effects 100 commentC1 echoResponder dbWithEcho rfl⟩

/-- C9: fault isolation of dispatch.  If no handler reaction lets a
`PRAWException` propagate (the claim is about unexpected, non-transient
errors), the worker finishes without an uncaught exception, every handler in
the sequence — before and after any failing one — gets exactly one recorded
outcome in order, and the final store is the fold of every handler action. -/
theorem worker_fault_isolation (catchHttp : Bool) (now : Nat) (t : Thing)
    (rs : List Responder) (s : DBState)
    (h : ∀ r ∈ rs, propagatesPRAW t r = false) :
    (comment_submission_worker catchHttp now t rs s).2.2 = none ∧
    (comment_submission_worker catchHttp now t rs s).2.1.map WorkerStep.bot =
      rs.map Responder.BOT_NAME ∧
    (comment_submission_worker catchHttp now t rs s).1 =
      rs.foldl (fun d r => (comment_submission_action now t r d).1) s := by
  induction rs generalizing s with
  | nil => exact ⟨rfl, rfl, rfl⟩
  | cons r rest ih =>
    have hr : propagatesPRAW t r = false := h r (List.mem_cons_self r rest)
    have hrest : ∀ r' ∈ rest, propagatesPRAW t r' = false :=
      fun r' hr' => h r' (List.mem_cons_of_mem r hr')
    rcases hx : comment_submission_action now t r s with ⟨s1, e⟩
    have he : e = propagatedExc t r := by
      have hae := action_exc_eq_propagated now t r s
      rw [hx] at hae
      exact hae
    obtain ⟨h1, h2, h3⟩ := ih s1 hrest
    rcases hw : comment_submission_worker catchHttp now t rest s1 with ⟨s2, steps, u⟩
    rw [hw] at h1 h2 h3
    dsimp only at h1 h2 h3
    rcases hp : propagatedExc t r with _ | ex
    · rw [hp] at he
      subst he
      simp only [comment_submission_worker, hx, hw, List.map_cons, List.foldl_cons,
        WorkerStep.bot]
      exact ⟨h1, by rw [h2], by rw [h3]⟩
    · have hnp : ex.isPRAWException = false := by
        unfold propagatesPRAW at hr
        rw [hp] at hr
        exact hr
      rw [hp] at he
      subst he
      simp only [comment_submission_worker, hx, hw, hnp, List.map_cons, List.foldl_cons,
        WorkerStep.bot, Bool.false_eq_true, if_false]
      exact ⟨h1, by rw [h2], by rw [h3]⟩

/-- Witness for C9: handlers A, B, C where the reaction of B raises an
unexpected error — A and C still receive the item and all three outcomes are
recorded. -/
theorem worker_fault_isolation_witness :
    (∀ r ∈ [responderA, responderB, responderC], propagatesPRAW commentC1 r = false) ∧
    ((comment_submission_worker true 200 commentC1
        [responderA, responderB, responderC] dbABC).2.2 = none ∧
     (comment_submission_worker true 200 commentC1
        [responderA, responderB, responderC] dbABC).2.1.map WorkerStep.bot =
       [responderA, responderB, responderC].map Responder.BOT_NAME ∧
     (comment_submission_worker true 200 commentC1
        [responderA, responderB, responderC] dbABC).1 =
       [responderA, responderB, responderC].foldl
         (fun d r => (comment_submission_action 200 commentC1 r d).1) dbABC) :=
  ⟨by decide,
   worker_fault_isolation true 200 commentC1 [responderA, responderB, responderC]
     dbABC (by decide)⟩

/-- C10: each store operation over the dedup-storage or deferred-update tables
that takes a handler name — `retrieve_thing`, `insert_into_update`,
`update_timestamp_in_update`, `delete_from_update` — raises `LookupError`
exactly when the name has no registry row (a duplicated registry row raises
`ValueError` instead), and an unregistered name leaves every table
unchanged. -/
theorem ops_raise_lookup_iff_unregistered (s : DBState)
    (thing m : String) (lifetime interval now : Nat) :
    ((retrieve_thing thing m s).2 = .error .lookupErr ↔ countModules s m = 0) ∧
    (retrieve_thing thing m s).1 = s ∧
    ((insert_into_update thing m lifetime interval now s).2 = .error .lookupErr
      ↔ countModules s m = 0) ∧
    (countModules s m = 0 → (insert_into_update thing m lifetime interval now s).1 = s) ∧
    ((update_timestamp_in_update thing m now s).2 = .error .lookupErr
      ↔ countModules s m = 0) ∧
    (countModules s m = 0 → (update_timestamp_in_update thing m now s).1 = s) ∧
    ((delete_from_update thing m now s).2 = .error .lookupErr ↔ countModules s m = 0) ∧
    (countModules s m = 0 → (delete_from_update thing m now s).1 = s) := by
  have hiff := error_if_not_exists_lookup_iff m s
  rcases h : _error_if_not_exists m s with e | u
  · rcases e with _ | _
    · have h0 : countModules s m = 0 := hiff.mp h
      simp [retrieve_thing, insert_into_update, update_timestamp_in_update,
        delete_from_update, h, h0]
    · have h0 : ¬ countModules s m = 0 := by
        intro hc
        have := hiff.mpr hc
        rw [h] at this
        exact absurd this (by simp)
      simp [retrieve_thing, insert_into_update, update_timestamp_in_update,
        delete_from_update, h, h0]
  · have h0 : ¬ countModules s m = 0 := by
      intro hc
      have := hiff.mpr hc
      rw [h] at this
      exact absurd this (by simp)
    simp [retrieve_thing, insert_into_update, update_timestamp_in_update,
      delete_from_update, h, h0]
